import Mathlib

/-!
Verification of the crowd-management core
(src/Crowd_management_system-main/config.py and utils.py).

Python floats are embedded as exact rationals (ℚ), Python ints as ℤ,
Python `int(x)` (truncation toward zero) as `pyInt`, and the fallible
external detector as a function returning `Except`.
-/

/-! Constants from config.py. -/

def SAFE_DENSITY : ℚ := 0.4

def MAX_DENSITY : ℚ := 0.67

def PERSON_CLASS_ID : ℤ := 0

def DEFAULT_VENUE_AREA : ℚ := 500

def COLOR_SAFE : ℕ × ℕ × ℕ := (76, 175, 80)

def COLOR_WARNING : ℕ × ℕ × ℕ := (255, 152, 0)

def COLOR_CRITICAL : ℕ × ℕ × ℕ := (244, 67, 54)

/-- Python's `int(q)` on a real value: truncation toward zero. -/
def pyInt (q : ℚ) : ℤ :=
  if 0 ≤ q then ⌊q⌋ else ⌈q⌉

/-- Record returned by `estimate_venue_capacity` in utils.py. -/
structure CapacityEstimate where
  area : ℚ
  safe_capacity : ℤ
  max_capacity : ℤ
  deriving DecidableEq, Repr

/-- Embedding of `estimate_venue_capacity(area_sqm=None)` from utils.py.
`none` models an absent argument (Python `None`). -/
def estimate_venue_capacity (area_sqm : Option ℚ) : CapacityEstimate :=
  let a : ℚ :=
    match area_sqm with
    | none => DEFAULT_VENUE_AREA
    | some x => if x ≤ 0 then DEFAULT_VENUE_AREA else x
  { area := a
    safe_capacity := pyInt (a * SAFE_DENSITY)
    max_capacity := pyInt (a * MAX_DENSITY) }

/-- The three alert status tags produced by `get_alert_status`. -/
inductive AlertStatus
  | SAFE
  | WARNING
  | CRITICAL
  deriving DecidableEq, Repr

/-- Position of a status in the severity ordering SAFE < WARNING < CRITICAL. -/
def statusRank : AlertStatus → ℕ
  | .SAFE => 0
  | .WARNING => 1
  | .CRITICAL => 2

/-- Record returned by `get_alert_status` in utils.py. -/
structure AlertResult where
  status : AlertStatus
  status_emoji : String
  color : String
  color_bgr : ℕ × ℕ × ℕ
  percentage : ℚ
  message : String
  recommendations : List String
  deriving DecidableEq, Repr

/-- Embedding of `get_alert_status(current_count, safe_capacity, max_capacity)`
from utils.py. -/
def get_alert_status (current_count safe_capacity max_capacity : ℤ) : AlertResult :=
  let percentage : ℚ :=
    if max_capacity > 0 then ((current_count : ℚ) / (max_capacity : ℚ)) * 100 else 0
  if current_count ≥ max_capacity then
    { status := .CRITICAL
      status_emoji := "🚨"
      color := "critical"
      color_bgr := COLOR_CRITICAL
      percentage := percentage
      message := "Overcrowding Detected"
      recommendations :=
        ["Stop all entries immediately",
         "Activate emergency protocols",
         "Deploy security personnel",
         "Open emergency exits",
         "Alert emergency services"] }
  else if current_count ≥ safe_capacity then
    { status := .WARNING
      status_emoji := "⚠️"
      color := "warning"
      color_bgr := COLOR_WARNING
      percentage := percentage
      message := "Approaching Capacity"
      recommendations :=
        ["Reduce entry rate",
         "Increase monitoring",
         "Prepare dispersal plan",
         "Alert security team",
         "Monitor crowd flow"] }
  else
    { status := .SAFE
      status_emoji := "✅"
      color := "safe"
      color_bgr := COLOR_SAFE
      percentage := percentage
      message := "Normal Operations"
      recommendations :=
        ["Continue monitoring",
         "Maintain regular checks"] }

/-- One detection box; `cls` embeds `int(box.cls[0])`. -/
structure DetBox where
  cls : ℤ
  deriving DecidableEq, Repr

/-- One detector result; `boxes` may be `None` in the source. -/
structure DetResult where
  boxes : Option (List DetBox)
  deriving DecidableEq, Repr

/-- A video frame, abstracted to the shape data the core logic reads. -/
structure VideoFrame where
  width : ℕ
  height : ℕ
  deriving DecidableEq, Repr

/-- The resize step at the top of `count_people_in_frame`: frames wider than
1280 px are scaled down to width 1280. -/
def resizeForDetection (f : VideoFrame) : VideoFrame :=
  if 1280 < f.width then
    { width := 1280
      height := (pyInt ((f.height : ℚ) * (1280 / (f.width : ℚ)))).toNat }
  else f

/-- The counting loop of `count_people_in_frame`: for each result whose
`boxes` is not `None` and non-empty, count the boxes whose class id is
`PERSON_CLASS_ID`. -/
def countPersonBoxes (results : List DetResult) : ℕ :=
  results.foldl
    (fun acc r =>
      match r.boxes with
      | none => acc
      | some bs =>
          if 0 < bs.length then
            acc + bs.countP (fun b => b.cls == PERSON_CLASS_ID)
          else acc)
    0

/-- Embedding of `count_people_in_frame(model, frame)` from utils.py.
The external detector `model` may fail (Python exception, embedded as
`Except.error`); the enclosing try/except turns any failure into count 0. -/
def count_people_in_frame
    (model : VideoFrame → Except String (List DetResult)) (frame : VideoFrame) : ℕ :=
  match model (resizeForDetection frame) with
  | .error _ => 0
  | .ok results => countPersonBoxes results

/-- The fixed recommendation list attached to each status in utils.py. -/
def recommendationsFor : AlertStatus → List String
  | .CRITICAL =>
      ["Stop all entries immediately",
       "Activate emergency protocols",
       "Deploy security personnel",
       "Open emergency exits",
       "Alert emergency services"]
  | .WARNING =>
      ["Reduce entry rate",
       "Increase monitoring",
       "Prepare dispersal plan",
       "Alert security team",
       "Monitor crowd flow"]
  | .SAFE =>
      ["Continue monitoring",
       "Maintain regular checks"]

/-! Helper lemmas characterising the embedded functions. -/

lemma pyInt_of_nonneg (q : ℚ) (h : 0 ≤ q) : pyInt q = ⌊q⌋ := if_pos h

lemma estimate_venue_capacity_some_nonpos (a : ℚ) (h : a ≤ 0) :
    estimate_venue_capacity (some a) = estimate_venue_capacity none := by
  simp [estimate_venue_capacity, h]

lemma estimate_venue_capacity_some_pos (a : ℚ) (ha : 0 < a) :
    estimate_venue_capacity (some a) =
      { area := a
        safe_capacity := ⌊a * SAFE_DENSITY⌋
        max_capacity := ⌊a * MAX_DENSITY⌋ } := by
  have h1 : ¬ a ≤ 0 := not_le.mpr ha
  have hs : (0:ℚ) ≤ a * SAFE_DENSITY := mul_nonneg ha.le (by norm_num [SAFE_DENSITY])
  have hm : (0:ℚ) ≤ a * MAX_DENSITY := mul_nonneg ha.le (by norm_num [MAX_DENSITY])
  simp [estimate_venue_capacity, h1, pyInt, hs, hm]

lemma estimate_venue_capacity_none :
    estimate_venue_capacity none =
      { area := 500, safe_capacity := 200, max_capacity := 335 } := by
  norm_num [estimate_venue_capacity, DEFAULT_VENUE_AREA, pyInt, SAFE_DENSITY, MAX_DENSITY,
    CapacityEstimate.mk.injEq]

lemma capacity_floor_bounds (e : ℚ) (he : 0 < e) :
    ⌊e * SAFE_DENSITY⌋ ≤ ⌊e * MAX_DENSITY⌋ ∧
    0 ≤ ⌊e * SAFE_DENSITY⌋ ∧ 0 ≤ ⌊e * MAX_DENSITY⌋ := by
  have h1 : e * SAFE_DENSITY ≤ e * MAX_DENSITY :=
    mul_le_mul_of_nonneg_left (by norm_num [SAFE_DENSITY, MAX_DENSITY]) he.le
  have h2 : (0:ℚ) ≤ e * SAFE_DENSITY := mul_nonneg he.le (by norm_num [SAFE_DENSITY])
  exact ⟨Int.floor_le_floor h1, Int.floor_nonneg.mpr h2, Int.floor_nonneg.mpr (h2.trans h1)⟩

lemma get_alert_status_status (c s m : ℤ) :
    (get_alert_status c s m).status =
      if m ≤ c then .CRITICAL else if s ≤ c then .WARNING else .SAFE := by
  by_cases h1 : m ≤ c <;> by_cases h2 : s ≤ c <;>
    simp [get_alert_status, ge_iff_le, h1, h2]

lemma get_alert_status_percentage (c s m : ℤ) :
    (get_alert_status c s m).percentage =
      if 0 < m then ((c : ℚ) / (m : ℚ)) * 100 else 0 := by
  by_cases h1 : m ≤ c <;> by_cases h2 : s ≤ c <;>
    simp [get_alert_status, ge_iff_le, gt_iff_lt, h1, h2]

lemma get_alert_status_message (c s m : ℤ) :
    (get_alert_status c s m).message =
      if m ≤ c then "Overcrowding Detected"
      else if s ≤ c then "Approaching Capacity"
      else "Normal Operations" := by
  by_cases h1 : m ≤ c <;> by_cases h2 : s ≤ c <;>
    simp [get_alert_status, ge_iff_le, h1, h2]

lemma get_alert_status_recommendations (c s m : ℤ) :
    (get_alert_status c s m).recommendations =
      recommendationsFor (get_alert_status c s m).status := by
  by_cases h1 : m ≤ c <;> by_cases h2 : s ≤ c <;>
    simp [get_alert_status, ge_iff_le, h1, h2, recommendationsFor]

/-! Claim theorems. -/

/-- Claim C1: for every non-negative `current_count` and non-negative
`safe_capacity ≤ max_capacity`, `get_alert_status` classifies by a
first-match-wins ladder: CRITICAL with message "Overcrowding Detected" when
`current_count ≥ max_capacity`; otherwise WARNING with message
"Approaching Capacity" when `current_count ≥ safe_capacity`; otherwise SAFE
with message "Normal Operations" — CRITICAL checked before WARNING. -/
theorem claim_C1_alert_ladder (c s m : ℤ) (hc : 0 ≤ c) (hs : 0 ≤ s) (hsm : s ≤ m) :
    (m ≤ c →
      (get_alert_status c s m).status = .CRITICAL ∧
      (get_alert_status c s m).message = "Overcrowding Detected") ∧
    (¬ m ≤ c → s ≤ c →
      (get_alert_status c s m).status = .WARNING ∧
      (get_alert_status c s m).message = "Approaching Capacity") ∧
    (¬ m ≤ c → ¬ s ≤ c →
      (get_alert_status c s m).status = .SAFE ∧
      (get_alert_status c s m).message = "Normal Operations") := by
  refine ⟨fun h1 => ?_, fun h1 h2 => ?_, fun h1 h2 => ?_⟩
  · rw [get_alert_status_status, get_alert_status_message]
    simp [h1]
  · rw [get_alert_status_status, get_alert_status_message]
    simp [h1, h2]
  · rw [get_alert_status_status, get_alert_status_message]
    simp [h1, h2]

/-- Witness for C1 at `current_count = 3`, `safe_capacity = 5`,
`max_capacity = 10` (SAFE branch). -/
theorem claim_C1_alert_ladder_witness :
    ((0:ℤ) ≤ 3 ∧ (0:ℤ) ≤ 5 ∧ (5:ℤ) ≤ 10 ∧ ¬ (10:ℤ) ≤ 3 ∧ ¬ (5:ℤ) ≤ 3) ∧
    (get_alert_status 3 5 10).status = .SAFE ∧
    (get_alert_status 3 5 10).message = "Normal Operations" :=
  ⟨by decide,
   (claim_C1_alert_ladder 3 5 10 (by decide) (by decide) (by decide)).2.2
     (by decide) (by decide)⟩

/-- Claim C2: the returned percentage equals `100 * current_count / max_capacity`
when `max_capacity > 0` and `0` otherwise, on every branch; the division is
guarded and never performed when `max_capacity` is not positive. -/
theorem claim_C2_percentage_guarded (c s m : ℤ) :
    (get_alert_status c s m).percentage =
      if 0 < m then 100 * (c : ℚ) / (m : ℚ) else 0 := by
  rw [get_alert_status_percentage]
  split_ifs with h
  · ring
  · rfl

/-- Claim C3: `estimate_venue_capacity` substitutes the default area 500 when
the input is absent or ≤ 0, returns `safe_capacity = ⌊area * 0.4⌋` and
`max_capacity = ⌊area * 0.67⌋`, and in particular maps area 500 to
safe_capacity 200 and max_capacity 335. -/
theorem claim_C3_capacity_estimator (a : ℚ) :
    (a ≤ 0 → estimate_venue_capacity (some a) = estimate_venue_capacity none) ∧
    (0 < a → estimate_venue_capacity (some a) =
      { area := a
        safe_capacity := ⌊a * SAFE_DENSITY⌋
        max_capacity := ⌊a * MAX_DENSITY⌋ }) ∧
    estimate_venue_capacity none =
      { area := 500, safe_capacity := 200, max_capacity := 335 } ∧
    estimate_venue_capacity (some 500) =
      { area := 500, safe_capacity := 200, max_capacity := 335 } := by
  refine ⟨fun h => estimate_venue_capacity_some_nonpos a h,
    fun h => estimate_venue_capacity_some_pos a h,
    estimate_venue_capacity_none, ?_⟩
  rw [estimate_venue_capacity_some_pos 500 (by norm_num)]
  norm_num [SAFE_DENSITY, MAX_DENSITY, CapacityEstimate.mk.injEq]

/-- Witness for C3 at area 500 (positive branch). -/
theorem claim_C3_capacity_estimator_witness :
    (0:ℚ) < 500 ∧
    estimate_venue_capacity (some 500) =
      { area := 500
        safe_capacity := ⌊(500:ℚ) * SAFE_DENSITY⌋
        max_capacity := ⌊(500:ℚ) * MAX_DENSITY⌋ } :=
  ⟨by decide, (claim_C3_capacity_estimator 500).2.1 (by decide)⟩

/-- Claim C4: for every area ≥ 0, the estimate satisfies
`safe_capacity ≤ max_capacity` and both capacities are non-negative
integers. -/
theorem claim_C4_capacity_invariant (a : ℚ) (ha : 0 ≤ a) :
    (estimate_venue_capacity (some a)).safe_capacity ≤
      (estimate_venue_capacity (some a)).max_capacity ∧
    0 ≤ (estimate_venue_capacity (some a)).safe_capacity ∧
    0 ≤ (estimate_venue_capacity (some a)).max_capacity := by
  by_cases h : a ≤ 0
  · rw [estimate_venue_capacity_some_nonpos a h, estimate_venue_capacity_none]
    norm_num
  · push_neg at h
    rw [estimate_venue_capacity_some_pos a h]
    simpa using capacity_floor_bounds a h

/-- Witness for C4 at area 0 (falls back to the default area). -/
theorem claim_C4_capacity_invariant_witness :
    (0:ℚ) ≤ 0 ∧
    ((estimate_venue_capacity (some 0)).safe_capacity ≤
      (estimate_venue_capacity (some 0)).max_capacity ∧
    0 ≤ (estimate_venue_capacity (some 0)).safe_capacity ∧
    0 ≤ (estimate_venue_capacity (some 0)).max_capacity) :=
  ⟨by decide, claim_C4_capacity_invariant 0 (by decide)⟩

/-- Claim C5: with `safe_capacity = max_capacity = 0`, every
`current_count ≥ 0` is classified CRITICAL; in particular
`get_alert_status 0 0 0` returns status CRITICAL with percentage 0. -/
theorem claim_C5_zero_capacity_critical (c : ℤ) (hc : 0 ≤ c) :
    (get_alert_status c 0 0).status = .CRITICAL ∧
    (get_alert_status 0 0 0).status = .CRITICAL ∧
    (get_alert_status 0 0 0).percentage = 0 := by
  refine ⟨?_, by decide, by decide⟩
  rw [get_alert_status_status]
  simp [hc]

/-- Witness for C5 at `current_count = 7`. -/
theorem claim_C5_zero_capacity_critical_witness :
    (0:ℤ) ≤ 7 ∧
    ((get_alert_status 7 0 0).status = .CRITICAL ∧
    (get_alert_status 0 0 0).status = .CRITICAL ∧
    (get_alert_status 0 0 0).percentage = 0) :=
  ⟨by decide, claim_C5_zero_capacity_critical 7 (by decide)⟩

/-- Claim C6: holding `safe_capacity ≤ max_capacity` fixed,
`get_alert_status` is monotone in `current_count`: the percentage never
decreases and the status never moves backward in the ordering
SAFE < WARNING < CRITICAL. -/
theorem claim_C6_monotone (s m c₁ c₂ : ℤ) (hsm : s ≤ m) (hc : c₁ ≤ c₂) :
    (get_alert_status c₁ s m).percentage ≤ (get_alert_status c₂ s m).percentage ∧
    statusRank (get_alert_status c₁ s m).status ≤
      statusRank (get_alert_status c₂ s m).status := by
  constructor
  · rw [get_alert_status_percentage, get_alert_status_percentage]
    split_ifs with h
    · have hm' : (0:ℚ) < (m:ℚ) := by exact_mod_cast h
      have hc' : ((c₁:ℚ)) ≤ ((c₂:ℚ)) := by exact_mod_cast hc
      gcongr
    · exact le_rfl
  · rw [get_alert_status_status, get_alert_status_status]
    split_ifs <;> simp [statusRank] <;> omega

/-- Witness for C6 at `safe_capacity = 5`, `max_capacity = 10`,
counts 3 and 12. -/
theorem claim_C6_monotone_witness :
    ((5:ℤ) ≤ 10 ∧ (3:ℤ) ≤ 12) ∧
    ((get_alert_status 3 5 10).percentage ≤ (get_alert_status 12 5 10).percentage ∧
    statusRank (get_alert_status 3 5 10).status ≤
      statusRank (get_alert_status 12 5 10).status) :=
  ⟨by decide, claim_C6_monotone 5 10 3 12 (by decide) (by decide)⟩

/-- Claim C7: the recommendation list is a fixed constant sequence determined
solely by the status: the CRITICAL list is the 5-item ordered list from the
source, the WARNING list is a fixed 5-item list, and the SAFE list is the
fixed 2-item list. -/
theorem claim_C7_recommendations_fixed (c s m : ℤ) :
    (get_alert_status c s m).recommendations =
      recommendationsFor (get_alert_status c s m).status ∧
    recommendationsFor .CRITICAL =
      ["Stop all entries immediately",
       "Activate emergency protocols",
       "Deploy security personnel",
       "Open emergency exits",
       "Alert emergency services"] ∧
    (recommendationsFor .WARNING).length = 5 ∧
    recommendationsFor .SAFE =
      ["Continue monitoring", "Maintain regular checks"] :=
  ⟨get_alert_status_recommendations c s m, rfl, rfl, rfl⟩

/-- Claim C8: both core functions are deterministic and stateless — two calls
with identical inputs return deep-equal records. The embedded functions read
only their arguments and the immutable config constants, exactly as in the
source. -/
theorem claim_C8_deterministic (a₁ a₂ : Option ℚ) (c₁ s₁ m₁ c₂ s₂ m₂ : ℤ)
    (ha : a₁ = a₂) (hcc : c₁ = c₂) (hss : s₁ = s₂) (hmm : m₁ = m₂) :
    estimate_venue_capacity a₁ = estimate_venue_capacity a₂ ∧
    get_alert_status c₁ s₁ m₁ = get_alert_status c₂ s₂ m₂ := by
  subst ha hcc hss hmm
  exact ⟨rfl, rfl⟩

/-- Witness for C8 at area 500 and alert inputs (100, 200, 335). -/
theorem claim_C8_deterministic_witness :
    estimate_venue_capacity (some 500) = estimate_venue_capacity (some 500) ∧
    get_alert_status 100 200 335 = get_alert_status 100 200 335 :=
  claim_C8_deterministic (some 500) (some 500) 100 200 335 100 200 335
    rfl rfl rfl rfl

/-- Claim C9: when the detector fails (raises, embedded as `Except.error`)
inside `count_people_in_frame`, the function returns count 0 instead of
propagating the failure. -/
theorem claim_C9_detector_failure_gives_zero
    (model : VideoFrame → Except String (List DetResult)) (frame : VideoFrame)
    (e : String) (h : model (resizeForDetection frame) = .error e) :
    count_people_in_frame model frame = 0 := by
  simp [count_people_in_frame, h]

/-- Witness for C9: a detector that always fails yields count 0 on a
640x480 frame. -/
theorem claim_C9_detector_failure_gives_zero_witness :
    (fun _ : VideoFrame =>
        (Except.error "model load failure" : Except String (List DetResult)))
      (resizeForDetection ⟨640, 480⟩) = Except.error "model load failure" ∧
    count_people_in_frame
      (fun _ => Except.error "model load failure") ⟨640, 480⟩ = 0 :=
  ⟨rfl,
   claim_C9_detector_failure_gives_zero
     (fun _ => Except.error "model load failure") ⟨640, 480⟩
     "model load failure" rfl⟩

/-- Claim C10: `get_alert_status` is total even when the caller violates the
expected ordering: with `safe_capacity > max_capacity`, every count in the
band `max_capacity ≤ current_count < safe_capacity` is classified CRITICAL,
never WARNING. -/
theorem claim_C10_inverted_thresholds_critical (c s m : ℤ)
    (h1 : m ≤ c) (h2 : c < s) :
    (get_alert_status c s m).status = .CRITICAL ∧
    (get_alert_status c s m).status ≠ .WARNING := by
  rw [get_alert_status_status]
  simp [h1]

/-- Witness for C10 at `current_count = 5`, `safe_capacity = 10`,
`max_capacity = 3`. -/
theorem claim_C10_inverted_thresholds_critical_witness :
    (3:ℤ) ≤ 5 ∧ (5:ℤ) < 10 ∧
    ((get_alert_status 5 10 3).status = .CRITICAL ∧
    (get_alert_status 5 10 3).status ≠ .WARNING) :=
  ⟨by decide, by decide,
   claim_C10_inverted_thresholds_critical 5 10 3 (by decide) (by decide)⟩
